import Mathlib

/-!
Shallow embedding of the indicator-computation core of the repository
(`src/app.py`, with `src/ejemplo.py` for the Tkinter variant).

Modelling conventions:
* Numeric table cells are rationals (`ℚ`); Python `round(x, n)` is modelled as
  round-half-to-even on rationals (`pyRound`).
* A municipality's one-row slice of the population table is an association
  list from column name to value (`Pop`); a missing column is a failed lookup.
* Fallible Python operations (`.values[0]` on a possibly-empty frame, direct
  column indexing, division) are `Except PyErr` computations; a bare
  `try/except: ...` is the catcher `tryField` (or `pyTry` at the `Except`
  level for the abort-freedom theorem).
-/

namespace IndApp

/-- One municipality's row of `structured_population.parquet`:
column name to numeric value (app.py line 73, `pop_df`). -/
abbrev Pop := List (String × ℚ)

/-- Column access on the one-row slice: `pop_df.get(c, ...)` / membership in
`pop_df.columns`. Returns the value of the first pair with the given key. -/
def lookupCol (pop : Pop) (c : String) : Option ℚ :=
  (pop.find? (fun p => p.1 == c)).map (fun p => p.2)

/-- app.py line 34: the fixed year list. -/
def YEARS : List String := ["2024", "2023", "2022", "2021"]

/-- app.py line 35. -/
def age_65_plus : List String :=
  ["65_69", "70_74", "75_79", "80_84", "85_89", "90_94", "95_99", "100"]

/-- app.py line 36. -/
def age_85_plus : List String := ["85_89", "90_94", "95_99", "100"]

/-- app.py line 37. -/
def ages_0_14 : List String := ["0_4", "5_9", "10_14"]

/-- app.py line 38. -/
def ages_15_64 : List String :=
  ["15_19", "20_24", "25_29", "30_34", "35_39", "40_44", "45_49", "50_54", "55_59", "60_64"]

/-- The dynamically built column name `f"total_{age}_total_{year}"`. -/
def colName (age year : String) : String :=
  "total_" ++ age ++ "_total_" ++ year

/-- app.py lines 127/128/130/131: select the band columns present in the
table, then sum them (`pop_df[[...cols if col in pop_df.columns]].sum(axis=1)`).
An empty selection sums to 0, as in pandas. -/
def sumAges (pop : Pop) (ages : List String) (year : String) : ℚ :=
  ((((ages.map (fun a => colName a year)).filter
      (fun c => (lookupCol pop c).isSome)).map
      (fun c => (lookupCol pop c).getD 0))).sum

/-- app.py line 126: `pop_df.get(f"total_total_total_{year}", pd.Series([0])).values[0]`. -/
def totalOf (pop : Pop) (year : String) : ℚ :=
  (lookupCol pop ("total_total_total_" ++ year)).getD 0

/-- app.py line 129: `pop_df.get(f"total_total_EX_{year}", pd.Series([0])).values[0]`. -/
def foreignOf (pop : Pop) (year : String) : ℚ :=
  (lookupCol pop ("total_total_EX_" ++ year)).getD 0

/-- app.py line 127. -/
def over65Of (pop : Pop) (year : String) : ℚ := sumAges pop age_65_plus year

/-- app.py line 128. -/
def over85Of (pop : Pop) (year : String) : ℚ := sumAges pop age_85_plus year

/-- app.py line 130. -/
def pop0_14Of (pop : Pop) (year : String) : ℚ := sumAges pop ages_0_14 year

/-- app.py line 131. -/
def pop15_64Of (pop : Pop) (year : String) : ℚ := sumAges pop ages_15_64 year

/-- Round-half-to-even to an integer, the tie-breaking rule of Python `round`. -/
def roundHalfEven (q : ℚ) : ℤ :=
  let f : ℤ := ⌊q⌋
  let r : ℚ := q - (f : ℚ)
  if r < 1 / 2 then f
  else if 1 / 2 < r then f + 1
  else if f % 2 = 0 then f else f + 1

/-- Python `round(q, nd)` on exact rationals. -/
def pyRound (q : ℚ) (nd : ℕ) : ℚ :=
  (roundHalfEven (q * (10 : ℚ) ^ nd) : ℚ) / (10 : ℚ) ^ nd

/-- Python exceptions that can arise in the indicator computations;
`reError` is the `re.error` raised when compiling an invalid (or, in this
model, unmodelled) regular-expression pattern. -/
inductive PyErr where
  | keyError
  | indexError
  | zeroDivisionError
  | valueError
  | reError
  deriving DecidableEq, Repr

/-- Python `frame[col].values[0]` on a filtered frame that may be empty:
`IndexError` when there is no row. -/
def seriesFirst {α : Type} : Option α → Except PyErr α
  | some a => .ok a
  | none => .error .indexError

/-- Direct column indexing `pop_df[c].values[0]` (no default):
`KeyError` when the column is absent. -/
def colFirst (pop : Pop) (c : String) : Except PyErr ℚ :=
  match lookupCol pop c with
  | some v => .ok v
  | none => .error .keyError

/-- Python division: `ZeroDivisionError` on a zero denominator. -/
def pyDiv (a b : ℚ) : Except PyErr ℚ :=
  if b = 0 then .error .zeroDivisionError else .ok (a / b)

/-- Result of `try: x except: pass`, the bare `except` clauses of app.py. -/
def tryField (e : Except PyErr ℚ) : Option ℚ :=
  match e with
  | .ok v => some v
  | .error _ => none

/-- The resolved row of `structured_censo.parquet` (2021 census housing):
columns `viviendasT`, `viviendasNoP`. -/
structure CensoRec where
  viviendasT : ℚ
  viviendasNoP : ℚ
  deriving DecidableEq, Repr

/-- The resolved row of `structured_censo2011_viviendas.parquet`:
columns `viviendasTotal`, `viviendasVacias`. -/
structure Viv2011Rec where
  viviendasTotal : ℚ
  viviendasVacias : ℚ
  deriving DecidableEq, Repr

/-- One row of `dgt2023.parquet`: INE code, name and fleet counts. -/
structure DgtRec where
  codigoINE : ℕ
  municipio : String
  parqueTurismos : ℚ
  parqueMotocicletas : ℚ
  parqueTotal : ℚ
  deriving DecidableEq, Repr

/-- The inputs of the per-municipality computation, after the dataset filters
of app.py lines 73-83: the population row, the first matching row of each
joined table (`none` when the filter matched no row or the column is absent),
the full vehicle-fleet table and the selection string. -/
structure Env where
  pop : Pop
  censo : Option CensoRec
  hog2011 : Option ℚ
  hog2021 : Option ℚ
  viv2011 : Option Viv2011Rec
  dgt : List DgtRec
  selectedMuni : String
  deriving DecidableEq, Repr

/-- app.py lines 85-90: household variation 2011 to 2021; reads `nHogares`
from both frames, then `round((n21 - n11) / n11 * 100, 2)`. -/
def varHogaresE (env : Env) : Except PyErr ℚ := do
  let n11 ← seriesFirst env.hog2011
  let n21 ← seriesFirst env.hog2021
  let d ← pyDiv (n21 - n11) n11
  pure (pyRound (d * 100) 2)

/-- app.py lines 92-97: housing-stock growth 2011 to 2021. -/
def crecimientoVivE (env : Env) : Except PyErr ℚ := do
  let nViv2011 ← seriesFirst (env.viv2011.map (fun v => v.viviendasTotal))
  let nViv2021 ← seriesFirst (env.censo.map (fun c => c.viviendasT))
  let d ← pyDiv (nViv2021 - nViv2011) nViv2011
  pure (pyRound (d * 100) 2)

/-- app.py lines 99-103: vacant housing 2011. The variable `n_viv_2011` is
the one bound in the previous block; it is bound exactly when the 2011
housing row resolved, so this block fails iff that row is absent or the
denominator is zero. -/
def vivVaciaE (env : Env) : Except PyErr ℚ := do
  let v ← seriesFirst env.viv2011
  let d ← pyDiv v.viviendasVacias v.viviendasTotal
  pure (pyRound (d * 100) 2)

/-- Left-pad with zeros to the given width: Python `str.zfill` on a digit string. -/
def zfill (n : ℕ) (s : String) : String :=
  String.mk (List.replicate (n - s.length) '0') ++ s

/-- Lower-cased character list of a string (Python `str.lower()` on the
ASCII identifiers involved). -/
def toLowerL (s : String) : List Char :=
  s.data.map Char.toLower

/-- app.py lines 24/106: the composite key
`df_dgt["Código INE"].astype(str).str.zfill(5) + " " + df_dgt["Municipio"]`. -/
def municipio_completo (r : DgtRec) : String :=
  zfill 5 (toString r.codigoINE) ++ " " ++ r.municipio

/-- app.py line 107: `df_dgt[df_dgt["municipio_completo"].str.lower() ==
selected_muni.lower()]`. -/
def dgtMatches (env : Env) : List DgtRec :=
  env.dgt.filter (fun r => toLowerL (municipio_completo r) == toLowerL env.selectedMuni)

/-- app.py lines 109-117: the vehicle try block. All four reads happen before
any of the three guarded computations, so a failed read makes all three
fields unavailable, while a zero denominator only nulls its own field. -/
def vehTripleE (env : Env) : Except PyErr (Option ℚ × Option ℚ × Option ℚ) := do
  let r ← seriesFirst (dgtMatches env).head?
  let pop2024 ← colFirst env.pop "total_total_total_2024"
  pure
    ( if pop2024 ≠ 0 then
        some (pyRound ((r.parqueTurismos + r.parqueMotocicletas) / pop2024 * 1000) 2)
      else none,
      if r.parqueTotal ≠ 0 then some (pyRound (r.parqueTurismos / r.parqueTotal * 100) 2)
      else none,
      if r.parqueTotal ≠ 0 then
        some (pyRound (r.parqueMotocicletas / r.parqueTotal * 100) 2)
      else none )

/-- app.py lines 118-121: `except` sets all three vehicle fields to `None`. -/
def tryTriple (e : Except PyErr (Option ℚ × Option ℚ × Option ℚ)) :
    Option ℚ × Option ℚ × Option ℚ :=
  match e with
  | .ok t => t
  | .error _ => (none, none, none)

/-- The three vehicle fields `(veh_1000hab, pct_turismos, pct_motos)`. -/
def vehTriple (env : Env) : Option ℚ × Option ℚ × Option ℚ :=
  tryTriple (vehTripleE env)

/-- app.py lines 151-156: inside the `year == "2021"` try block, the reads of
`viviendasT`, `viviendasNoP` and `total_total_total_2021` all precede the
first assignment; the secondary-housing assignment is first, so it fails iff
a read fails or `viviendasT` is zero. -/
def housingSecE (env : Env) : Except PyErr ℚ := do
  let c ← seriesFirst env.censo
  let _ ← colFirst env.pop "total_total_total_2021"
  let d ← pyDiv c.viviendasNoP c.viviendasT
  pure (pyRound (d * 100) 2)

/-- app.py lines 151-157: the D.25 assignment runs after the secondary-housing
one; an exception anywhere earlier (including the first division) leaves it
unassigned, and a zero 2021 population fails its own division. -/
def housingD25E (env : Env) : Except PyErr ℚ := do
  let c ← seriesFirst env.censo
  let p ← colFirst env.pop "total_total_total_2021"
  let _ ← pyDiv c.viviendasNoP c.viviendasT
  let d ← pyDiv c.viviendasT p
  pure (pyRound (d * 1000) 4)

/-- app.py line 135: `round(over_65 / total * 100, 2) if total else None`. -/
def envejecimiento (pop : Pop) (year : String) : Option ℚ :=
  if totalOf pop year ≠ 0 then
    some (pyRound (over65Of pop year / totalOf pop year * 100) 2)
  else none

/-- app.py line 136. -/
def senectud (pop : Pop) (year : String) : Option ℚ :=
  if over65Of pop year ≠ 0 then
    some (pyRound (over85Of pop year / over65Of pop year * 100) 2)
  else none

/-- app.py line 137. -/
def extranjera (pop : Pop) (year : String) : Option ℚ :=
  if totalOf pop year ≠ 0 then
    some (pyRound (foreignOf pop year / totalOf pop year * 100) 2)
  else none

/-- app.py line 138. -/
def depTotal (pop : Pop) (year : String) : Option ℚ :=
  if pop15_64Of pop year ≠ 0 then
    some (pyRound ((pop0_14Of pop year + over65Of pop year) / pop15_64Of pop year * 100) 2)
  else none

/-- app.py line 139. -/
def depInfantil (pop : Pop) (year : String) : Option ℚ :=
  if pop15_64Of pop year ≠ 0 then
    some (pyRound (pop0_14Of pop year / pop15_64Of pop year * 100) 2)
  else none

/-- app.py line 140. -/
def depMayores (pop : Pop) (year : String) : Option ℚ :=
  if pop15_64Of pop year ≠ 0 then
    some (pyRound (over65Of pop year / pop15_64Of pop year * 100) 2)
  else none

/-- One output row of the results table (app.py lines 133-149 plus the 2021
housing update of lines 151-159); `none` is pandas `None` = absent. -/
structure Row where
  ano : String
  envejecimiento : Option ℚ
  senectud : Option ℚ
  extranjera : Option ℚ
  depTotal : Option ℚ
  depInfantil : Option ℚ
  depMayores : Option ℚ
  vivSecundaria : Option ℚ
  d25 : Option ℚ
  varHogares : Option ℚ
  crecimientoViv : Option ℚ
  vivVacia : Option ℚ
  veh1000 : Option ℚ
  pctTurismos : Option ℚ
  pctMotos : Option ℚ
  deriving DecidableEq, Repr

/-- The loop body of app.py lines 125-161 for one year: the row dict, with
the two housing fields initialised to `None` and overwritten by the
`year == "2021"` try block as modelled by `housingSecE` / `housingD25E`. -/
def mkRow (env : Env) (year : String) : Row :=
  { ano := year
    envejecimiento := envejecimiento env.pop year
    senectud := senectud env.pop year
    extranjera := extranjera env.pop year
    depTotal := depTotal env.pop year
    depInfantil := depInfantil env.pop year
    depMayores := depMayores env.pop year
    vivSecundaria := if year == "2021" then tryField (housingSecE env) else none
    d25 := if year == "2021" then tryField (housingD25E env) else none
    varHogares := if year == "2021" then tryField (varHogaresE env) else none
    crecimientoViv := if year == "2021" then tryField (crecimientoVivE env) else none
    vivVacia := if year == "2021" then tryField (vivVaciaE env) else none
    veh1000 := if year == "2024" then (vehTriple env).1 else none
    pctTurismos := if year == "2023" then (vehTriple env).2.1 else none
    pctMotos := if year == "2023" then (vehTriple env).2.2 else none }

/-- app.py lines 124-163: the assembled results table, one row per year of
the fixed list. -/
def results (env : Env) : List Row :=
  YEARS.map (mkRow env)

/-- Boolean prefix test on character lists. -/
def leadsWith : List Char → List Char → Bool
  | [], _ => true
  | _ :: _, [] => false
  | a :: as, b :: bs => a == b && leadsWith as bs

/-- Boolean contiguous-substring test on character lists. -/
def hasSub : List Char → List Char → Bool
  | pat, [] => pat.isEmpty
  | pat, h :: t => leadsWith pat (h :: t) || hasSub pat t

/-- Case-sensitive substring containment, pandas `filter(like=pat)`. -/
def strContains (hay pat : String) : Bool :=
  hasSub pat.data hay.data

/-- Literal case-insensitive substring containment. This is the
specification's reading of the row lookup; the program's
`Series.str.contains(sel, case=False)` (app.py line 172) instead treats the
selection as a regular expression (`reSearchStr` below), which coincides with
this function exactly when the selection has no regex metacharacters. -/
def containsCI (hay pat : String) : Bool :=
  hasSub (toLowerL pat) (toLowerL hay)

/-- The regex metacharacters of Python `re` (outside character classes). -/
def metaChars : List Char :=
  ['(', ')', '|', '.', '\\', '*', '+', '?', '[', ']', '{', '}', '^', '$']

/-- Metacharacters whose semantics this model does not implement
(quantifiers, classes, anchors); a pattern containing one is conservatively
treated as failing to compile. They cannot occur in municipality keys. -/
def unsupportedMeta : List Char :=
  ['*', '+', '?', '[', ']', '{', '}', '^', '$']

/-- Regular expressions over characters: the fragment of Python `re` needed
for municipality-key patterns — empty pattern, literal character, the `.`
wildcard, concatenation, and alternation. Grouping parentheses only group
(capturing is irrelevant to matching). -/
inductive Re where
  | emp
  | ch (c : Char)
  | dot
  | seq (a b : Re)
  | alt (a b : Re)
  deriving DecidableEq, Repr

/-- Concatenation of a list of regex atoms. -/
def joinSeq : List Re → Re
  | [] => .emp
  | r :: rs => .seq r (joinSeq rs)

/-- Fold the accumulated alternatives of one alternation level. -/
def joinAlt : Option Re → Re → Re
  | none, r => r
  | some a, r => .alt a r

/-- Backtracking matcher in continuation style: `reM re s k` holds iff some
prefix of `s` matches `re` (characters compared case-insensitively, for
`re.IGNORECASE`) and `k` accepts the remaining suffix. The wildcard matches
any character except a newline, as in Python without `DOTALL`. -/
def reM : Re → List Char → (List Char → Bool) → Bool
  | .emp, s, k => k s
  | .ch _, [], _ => false
  | .ch c, a :: s, k => (a.toLower == c.toLower) && k s
  | .dot, [], _ => false
  | .dot, a :: s, k => (a != '\n') && k s
  | .seq r1 r2, s, k => reM r1 s (fun s2 => reM r2 s2 k)
  | .alt r1 r2, s, k => reM r1 s k || reM r2 s k

/-- Python `re.search`: try a match at every start position. -/
def reSearchL (re : Re) : List Char → Bool
  | [] => reM re [] (fun _ => true)
  | a :: t => reM re (a :: t) (fun _ => true) || reSearchL re t

/-- Search the pattern anywhere in the haystack string. -/
def reSearchStr (re : Re) (hay : String) : Bool :=
  reSearchL re hay.data

/-- One-pass parser for the modelled regex fragment. `altAcc` holds the
alternatives completed at the current level, `seqAcc` the atoms of the
current sequence in reverse, and `stack` the saved states of the enclosing
groups. Unbalanced parentheses, a trailing backslash, an alphanumeric escape
(a character class in Python), or an unsupported metacharacter yield `none`
(the pattern does not compile in this model). -/
def parseRegexAux : List Char → Option Re → List Re → List (Option Re × List Re) →
    Option Re
  | [], altAcc, seqAcc, stack =>
    match stack with
    | [] => some (joinAlt altAcc (joinSeq seqAcc.reverse))
    | _ :: _ => none
  | c :: rest, altAcc, seqAcc, stack =>
    if c = '(' then parseRegexAux rest none [] ((altAcc, seqAcc) :: stack)
    else if c = ')' then
      match stack with
      | [] => none
      | (a, s) :: stack2 =>
        parseRegexAux rest a (joinAlt altAcc (joinSeq seqAcc.reverse) :: s) stack2
    else if c = '|' then
      parseRegexAux rest (some (joinAlt altAcc (joinSeq seqAcc.reverse))) [] stack
    else if c = '.' then parseRegexAux rest altAcc (Re.dot :: seqAcc) stack
    else if c = '\\' then
      match rest with
      | [] => none
      | c2 :: rest2 =>
        if c2.isAlphanum then none
        else parseRegexAux rest2 altAcc (Re.ch c2 :: seqAcc) stack
    else if c ∈ unsupportedMeta then none
    else parseRegexAux rest altAcc (Re.ch c :: seqAcc) stack

/-- Compile a pattern string, Python `re.compile` on the modelled fragment. -/
def parseRegex (pat : String) : Option Re :=
  parseRegexAux pat.data none [] []

/-- A selection string free of regex metacharacters: on these the program's
regex search coincides with literal substring containment. -/
def plainPattern (pat : String) : Bool :=
  pat.data.all (fun c => !(metaChars.contains c))

/-- One row of `soriaPop.parquet` after the rename of app.py line 170: the
municipality cell plus the remaining (column name, raw cell) pairs. -/
structure HistRow where
  municipio : String
  cols : List (String × String)
  deriving DecidableEq, Repr

/-- A value matched by the regex `^\s*$` of app.py line 177 (whitespace-only,
including empty), which `clean_series` replaces by NA. -/
def isBlankStr (s : String) : Bool :=
  s.data.all Char.isWhitespace

/-- Digit-string to natural parse: every character a digit, at least one. -/
def parseNatDigits (s : String) : Option ℕ :=
  if s.data ≠ [] ∧ s.data.all Char.isDigit then
    some (s.data.foldl (fun a c => a * 10 + (c.toNat - 48)) 0)
  else none

/-- Split a character list at the first dot. -/
def splitAtDot : List Char → List Char × Option (List Char)
  | [] => ([], none)
  | c :: t =>
    if c = '.' then ([], some t)
    else
      let r := splitAtDot t
      (c :: r.1, r.2)

/-- Strip leading and trailing whitespace. -/
def trimWs (s : String) : List Char :=
  ((s.data.dropWhile Char.isWhitespace).reverse.dropWhile Char.isWhitespace).reverse

/-- Numeric parse of a cell, `pd.to_numeric(..., errors="coerce")`: optional
sign, decimal digits with an optional fractional part; anything else is NA. -/
def parseNumeric (s : String) : Option ℚ :=
  let t := trimWs s
  let signBody : Bool × List Char :=
    match t with
    | '-' :: rest => (true, rest)
    | '+' :: rest => (false, rest)
    | l => (false, l)
  let body := splitAtDot signBody.2
  let mag : Option ℚ :=
    match body.2 with
    | none => (parseNatDigits (String.mk body.1)).map (fun n => (n : ℚ))
    | some frac =>
      match parseNatDigits (String.mk body.1), parseNatDigits (String.mk frac) with
      | some n, some m => some ((n : ℚ) + (m : ℚ) / (10 : ℚ) ^ frac.length)
      | _, _ => none
  mag.map (fun q => if signBody.1 then -q else q)

/-- Function `clean_series` (app.py lines 176-177) applied to one cell: blank or
whitespace-only becomes NA, then numeric coercion; `dropna` removes NA. -/
def coerceCell (s : String) : Option ℚ :=
  if isBlankStr s then none else parseNumeric s

/-- Python `hist_row.filter(like=pat)` followed by `clean_series(...).dropna()`:
the (column, parsed value) pairs that survive. -/
def cleaned (cols : List (String × String)) (pat : String) : List (String × ℚ) :=
  (cols.filter (fun c => strContains c.1 pat)).filterMap
    (fun c => (coerceCell c.2).map (fun q => (c.1, q)))

/-- Python `int(col.split("_")[0])` (app.py line 184): integer parse of the leading
segment before the first underscore; `None` models the `ValueError`. -/
def parseYear (col : String) : Option ℤ :=
  let lead := String.mk (col.data.takeWhile (fun c => c ≠ '_'))
  let t := trimWs lead
  match t with
  | '-' :: rest => (parseNatDigits (String.mk rest)).map (fun n => -(n : ℤ))
  | '+' :: rest => (parseNatDigits (String.mk rest)).map (fun n => (n : ℤ))
  | l => (parseNatDigits (String.mk l)).map (fun n => (n : ℤ))

/-- Python `extract_years(pop_t)` over the cleaned total series; a non-numeric
leading token raises `ValueError`. -/
def yearsOf : List (String × ℚ) → Except PyErr (List ℤ)
  | [] => .ok []
  | p :: ts =>
    match parseYear p.1 with
    | none => .error .valueError
    | some y =>
      match yearsOf ts with
      | .ok ys => .ok (y :: ys)
      | .error e => .error e

/-- Python `pop_h.values if len(pop_h) else [None] * len(years)` (app.py lines
191-192): an empty series becomes all-absent; a non-empty series of the wrong
length makes the DataFrame constructor raise `ValueError`. -/
def optColumn (vals : List (String × ℚ)) (n : ℕ) : Except PyErr (List (Option ℚ)) :=
  if vals.length = 0 then .ok (List.replicate n none)
  else if vals.length = n then .ok (vals.map (fun v => some v.2))
  else .error .valueError

/-- One point of the historical series: year, total, men, women. -/
structure HistEntry where
  year : ℤ
  total : ℚ
  hombres : Option ℚ
  mujeres : Option ℚ
  deriving DecidableEq, Repr

/-- Positional assembly of the DataFrame columns of app.py lines 188-193. -/
def zipEntries : List ℤ → List (String × ℚ) → List (Option ℚ) → List (Option ℚ) →
    List HistEntry
  | y :: ys, t :: ts, m :: ms, w :: ws =>
    { year := y, total := t.2, hombres := m, mujeres := w } :: zipEntries ys ts ms ws
  | _, _, _, _ => []

/-- Ordering of series points by year. -/
def yearLE (a b : HistEntry) : Prop := a.year ≤ b.year

instance : DecidableRel yearLE := fun a b => Int.decLe a.year b.year

instance : IsTotal HistEntry yearLE := ⟨fun a b => Int.le_total a.year b.year⟩

instance : IsTrans HistEntry yearLE := ⟨fun _ _ _ => Int.le_trans⟩

/-- Python `.sort_values("Año")` (app.py line 193). -/
def sortByYear (l : List HistEntry) : List HistEntry :=
  l.insertionSort yearLE

/-- Outcome of the historical block: the no-match warning branch, a caught
exception shown as an error message, or the assembled series. -/
inductive HistResult where
  | noData
  | err (e : PyErr)
  | series (l : List HistEntry)
  deriving DecidableEq, Repr

/-- app.py lines 168-199: locate the row with
`str.contains(selected_muni, case=False)` — a case-insensitive regular
expression search of the selection, pandas' default `regex=True` — taking
the first match (`.iloc[0]`); then clean the three suffix-filtered series,
extract years from the total series, and assemble the sorted series. A
pattern that does not compile raises inside the block and is caught as an
error by the surrounding `try/except`. -/
def computeHistorical (rows : List HistRow) (sel : String) : HistResult :=
  match parseRegex sel with
  | none => .err .reError
  | some re =>
    match rows.find? (fun r => reSearchStr re r.municipio) with
    | none => .noData
    | some r =>
      match yearsOf (cleaned r.cols "_t") with
      | .error e => .err e
      | .ok ys =>
        match optColumn (cleaned r.cols "_h") (cleaned r.cols "_t").length with
        | .error e => .err e
        | .ok hcol =>
          match optColumn (cleaned r.cols "_m") (cleaned r.cols "_t").length with
          | .error e => .err e
          | .ok mcol =>
            .series (sortByYear (zipEntries ys (cleaned r.cols "_t") hcol mcol))

end IndApp

namespace Ejemplo

open IndApp

/-- A Treeview cell of ejemplo.py: the empty-string marker or a number. -/
inductive Cell where
  | blank
  | num (q : ℚ)
  deriving DecidableEq, Repr

/-- The value carried by a cell, with `""` as the absent marker. -/
def Cell.toOpt : Cell → Option ℚ
  | .blank => none
  | .num q => some q

/-- ejemplo.py line 140 (`calculate_indicators`); the aggregate lines 131-136
are textually identical to app.py lines 126-131, so the shared aggregate
definitions are reused. -/
def envejecimiento (pop : Pop) (year : String) : Cell :=
  if totalOf pop year ≠ 0 then
    .num (pyRound (over65Of pop year / totalOf pop year * 100) 2)
  else .blank

/-- ejemplo.py line 141. -/
def senectud (pop : Pop) (year : String) : Cell :=
  if over65Of pop year ≠ 0 then
    .num (pyRound (over85Of pop year / over65Of pop year * 100) 2)
  else .blank

/-- ejemplo.py line 142. -/
def extranjera (pop : Pop) (year : String) : Cell :=
  if totalOf pop year ≠ 0 then
    .num (pyRound (foreignOf pop year / totalOf pop year * 100) 2)
  else .blank

/-- ejemplo.py line 143. -/
def depTotal (pop : Pop) (year : String) : Cell :=
  if pop15_64Of pop year ≠ 0 then
    .num (pyRound ((pop0_14Of pop year + over65Of pop year) / pop15_64Of pop year * 100) 2)
  else .blank

/-- ejemplo.py line 144. -/
def depInfantil (pop : Pop) (year : String) : Cell :=
  if pop15_64Of pop year ≠ 0 then
    .num (pyRound (pop0_14Of pop year / pop15_64Of pop year * 100) 2)
  else .blank

/-- ejemplo.py line 145. -/
def depMayores (pop : Pop) (year : String) : Cell :=
  if pop15_64Of pop year ≠ 0 then
    .num (pyRound (over65Of pop year / pop15_64Of pop year * 100) 2)
  else .blank

end Ejemplo

namespace IndApp

/-! ### Concrete inputs used by the witness theorems -/

/-- A small population row: 2024 total 10000, one 65+ band of 2000, one
working-age band of 500, one child band of 300. -/
def popW : Pop :=
  [("total_total_total_2024", 10000), ("total_65_69_total_2024", 2000),
   ("total_15_19_total_2024", 500), ("total_0_4_total_2024", 300)]

/-- An environment around `popW` with no joined records and no fleet rows. -/
def envW : Env :=
  { pop := popW, censo := none, hog2011 := none, hog2021 := none,
    viv2011 := none, dgt := [], selectedMuni := "12345 Example City" }

/-- An environment whose population row is empty: every aggregate is zero. -/
def envW0 : Env :=
  { pop := [], censo := none, hog2011 := none, hog2021 := none,
    viv2011 := none, dgt := [], selectedMuni := "12345 Example City" }

/-- An environment whose fleet table has one row that does not match the
selection. -/
def envW7 : Env :=
  { pop := popW, censo := none, hog2011 := none, hog2021 := none,
    viv2011 := none, dgt := [⟨999, "Otro", 10, 5, 20⟩],
    selectedMuni := "12345 Example City" }

/-- A one-row historical table: two total columns, a whitespace male cell and
a non-numeric female cell. -/
def histW : List HistRow :=
  [{ municipio := "42173 Soria",
     cols := [("1900_t", "7151"), ("1900_h", " "), ("1900_m", "abc"), ("1910_t", "7563")] }]

/-- The series the extractor produces from `histW`. -/
def entriesW : List HistEntry :=
  [{ year := 1900, total := 7151, hombres := none, mujeres := none },
   { year := 1910, total := 7563, hombres := none, mujeres := none }]

/-- An INE-style municipality key with its article in parentheses. As a
regex, the parentheses are a group, so the pattern matches haystacks
containing "42155 Rabanos Los" and not the literal cell text. -/
def selCX : String := "42155 Rabanos (Los)"

/-- A one-row historical table whose municipality cell literally contains
`selCX`. -/
def histCX : List HistRow :=
  [{ municipio := "42155 Rabanos (Los)", cols := [("1900_t", "7151")] }]

/-! ### Helper lemmas -/

/-- Summing the present band columns equals summing all band columns with
absent ones contributing zero. -/
lemma sumAges_eq_getD (pop : Pop) (ages : List String) (year : String) :
    sumAges pop ages year =
      (ages.map (fun a => (lookupCol pop (colName a year)).getD 0)).sum := by
  induction ages with
  | nil => rfl
  | cons a t ih =>
    cases h : lookupCol pop (colName a year) with
    | none => simpa [sumAges, List.filter_cons, h] using ih
    | some v => simpa [sumAges, List.filter_cons, h] using ih

/-- The common shape of an app.py field and its ejemplo.py counterpart. -/
lemma opt_cell_if (c : Prop) [Decidable c] (x : ℚ) :
    (if c then some x else none) = (if c then Ejemplo.Cell.num x else .blank).toOpt := by
  split <;> rfl

/-! ### Claims -/

/-- C1: for every municipality row and every year in the fixed list with a
positive total population, the Aging indicator equals
round(over65 / total * 100, 2) with over65 the sum of the present 65+ band
columns. -/
theorem claim_C1 (env : Env) (year : String) (_hy : year ∈ YEARS)
    (h : 0 < totalOf env.pop year) :
    (mkRow env year).envejecimiento =
      some (pyRound (over65Of env.pop year / totalOf env.pop year * 100) 2) := by
  show envejecimiento env.pop year = _
  rw [envejecimiento, if_pos h.ne']

theorem claim_C1_witness :
    ("2024" ∈ YEARS ∧ 0 < totalOf envW.pop "2024") ∧
      (mkRow envW "2024").envejecimiento = some 20 := by
  have h1 : "2024" ∈ YEARS := by simp [YEARS]
  have ht : totalOf envW.pop "2024" = 10000 := rfl
  have hov : over65Of envW.pop "2024" = List.sum [(2000 : ℚ)] := rfl
  have h2 : 0 < totalOf envW.pop "2024" := by rw [ht]; norm_num
  refine ⟨⟨h1, h2⟩, ?_⟩
  rw [claim_C1 envW "2024" h1 h2, ht, hov]
  norm_num [pyRound, roundHalfEven]

/-- C2: a zero total makes Aging and Foreign absent, a zero working-age
population makes the three dependency indicators absent, and a zero 65+
population makes Senescence absent; in each case the field is `none`. -/
theorem claim_C2 (env : Env) (year : String) :
    (totalOf env.pop year = 0 →
      (mkRow env year).envejecimiento = none ∧ (mkRow env year).extranjera = none) ∧
    (pop15_64Of env.pop year = 0 →
      (mkRow env year).depTotal = none ∧ (mkRow env year).depInfantil = none ∧
        (mkRow env year).depMayores = none) ∧
    (over65Of env.pop year = 0 → (mkRow env year).senectud = none) := by
  refine ⟨fun h => ⟨?_, ?_⟩, fun h => ⟨?_, ?_, ?_⟩, fun h => ?_⟩ <;>
    simp [mkRow, envejecimiento, extranjera, depTotal, depInfantil, depMayores,
      senectud, h]

theorem claim_C2_witness :
    (mkRow envW0 "2024").envejecimiento = none ∧
      (mkRow envW0 "2024").depTotal = none ∧ (mkRow envW0 "2024").senectud = none := by
  have h := claim_C2 envW0 "2024"
  exact ⟨(h.1 rfl).1, (h.2.1 rfl).1, h.2.2 rfl⟩

/-- C4: year-gating of the assembled output. Rows for years other than 2021
carry no housing or 2011-2021 variation values, rows for years other than
2024 carry no Vehicles-per-1000 value, and rows for years other than 2023
carry no fleet-percentage values. -/
theorem claim_C4 (env : Env) (row : Row) (hr : row ∈ results env) :
    (row.ano ≠ "2021" → row.vivSecundaria = none ∧ row.d25 = none ∧
      row.varHogares = none ∧ row.crecimientoViv = none ∧ row.vivVacia = none) ∧
    (row.ano ≠ "2024" → row.veh1000 = none) ∧
    (row.ano ≠ "2023" → row.pctTurismos = none ∧ row.pctMotos = none) := by
  rw [results] at hr
  obtain ⟨y, _, rfl⟩ := List.mem_map.1 hr
  refine ⟨fun h => ?_, fun h => ?_, fun h => ?_⟩
  · have hb : (y == "2021") = false :=
      beq_eq_false_iff_ne.mpr (by simpa [mkRow] using h)
    simp [mkRow, hb]
  · have hb : (y == "2024") = false :=
      beq_eq_false_iff_ne.mpr (by simpa [mkRow] using h)
    simp [mkRow, hb]
  · have hb : (y == "2023") = false :=
      beq_eq_false_iff_ne.mpr (by simpa [mkRow] using h)
    simp [mkRow, hb]

theorem claim_C4_witness :
    (mkRow envW0 "2024").vivSecundaria = none ∧ (mkRow envW0 "2024").pctTurismos = none := by
  have hr : mkRow envW0 "2024" ∈ results envW0 :=
    List.mem_map.2 ⟨"2024", by simp [YEARS], rfl⟩
  have h := claim_C4 envW0 (mkRow envW0 "2024") hr
  exact ⟨(h.1 (by simp [mkRow])).1, (h.2.2 (by simp [mkRow])).1⟩

/-- C7: the fleet resolver matches a row exactly when the selection is
case-insensitively equal to the composite key zero-padded-code + space +
name; with no match, the 2024 row's Vehicles-per-1000 is absent and every
other field of the 2024 row is independent of the fleet table. -/
theorem claim_C7 (env : Env) :
    (∀ r : DgtRec, r ∈ dgtMatches env ↔ r ∈ env.dgt ∧
        toLowerL (zfill 5 (toString r.codigoINE) ++ " " ++ r.municipio) =
          toLowerL env.selectedMuni) ∧
    (dgtMatches env = [] →
      (mkRow env "2024").veh1000 = none ∧
      ∀ dgt2 : List DgtRec,
        (mkRow { env with dgt := dgt2 } "2024").ano = (mkRow env "2024").ano ∧
        (mkRow { env with dgt := dgt2 } "2024").envejecimiento =
          (mkRow env "2024").envejecimiento ∧
        (mkRow { env with dgt := dgt2 } "2024").senectud =
          (mkRow env "2024").senectud ∧
        (mkRow { env with dgt := dgt2 } "2024").extranjera =
          (mkRow env "2024").extranjera ∧
        (mkRow { env with dgt := dgt2 } "2024").depTotal =
          (mkRow env "2024").depTotal ∧
        (mkRow { env with dgt := dgt2 } "2024").depInfantil =
          (mkRow env "2024").depInfantil ∧
        (mkRow { env with dgt := dgt2 } "2024").depMayores =
          (mkRow env "2024").depMayores ∧
        (mkRow { env with dgt := dgt2 } "2024").vivSecundaria =
          (mkRow env "2024").vivSecundaria ∧
        (mkRow { env with dgt := dgt2 } "2024").d25 = (mkRow env "2024").d25 ∧
        (mkRow { env with dgt := dgt2 } "2024").varHogares =
          (mkRow env "2024").varHogares ∧
        (mkRow { env with dgt := dgt2 } "2024").crecimientoViv =
          (mkRow env "2024").crecimientoViv ∧
        (mkRow { env with dgt := dgt2 } "2024").vivVacia =
          (mkRow env "2024").vivVacia ∧
        (mkRow { env with dgt := dgt2 } "2024").pctTurismos =
          (mkRow env "2024").pctTurismos ∧
        (mkRow { env with dgt := dgt2 } "2024").pctMotos =
          (mkRow env "2024").pctMotos) := by
  constructor
  · intro r
    simp [dgtMatches, List.mem_filter, municipio_completo]
  · intro h
    refine ⟨?_, fun dgt2 =>
      ⟨rfl, rfl, rfl, rfl, rfl, rfl, rfl, rfl, rfl, rfl, rfl, rfl, rfl, rfl⟩⟩
    have hv : vehTripleE env = Except.error PyErr.indexError := by
      simp [vehTripleE, h, seriesFirst, Bind.bind, Except.bind]
    show (vehTriple env).1 = none
    rw [vehTriple, hv]
    rfl

theorem claim_C7_witness :
    dgtMatches envW7 = [] ∧ (mkRow envW7 "2024").veh1000 = none := by
  have h : dgtMatches envW7 = [] := rfl
  exact ⟨h, ((claim_C7 envW7).2 h).1⟩

/-- C6: each aggregate sums exactly the present band columns of its defining
band set, missing bands contributing zero, and total / foreign default to
zero when their column is absent. -/
theorem claim_C6 (pop : Pop) (year : String) :
    over65Of pop year =
      (age_65_plus.map (fun a => (lookupCol pop (colName a year)).getD 0)).sum ∧
    over85Of pop year =
      (age_85_plus.map (fun a => (lookupCol pop (colName a year)).getD 0)).sum ∧
    pop0_14Of pop year =
      (ages_0_14.map (fun a => (lookupCol pop (colName a year)).getD 0)).sum ∧
    pop15_64Of pop year =
      (ages_15_64.map (fun a => (lookupCol pop (colName a year)).getD 0)).sum ∧
    totalOf pop year = (lookupCol pop ("total_total_total_" ++ year)).getD 0 ∧
    foreignOf pop year = (lookupCol pop ("total_total_EX_" ++ year)).getD 0 :=
  ⟨sumAges_eq_getD pop age_65_plus year, sumAges_eq_getD pop age_85_plus year,
    sumAges_eq_getD pop ages_0_14 year, sumAges_eq_getD pop ages_15_64 year,
    rfl, rfl⟩

/-- Every entry assembled by `zipEntries` stems from a pair of the cleaned
total series, with its year parsed from that pair's column name. -/
lemma zipEntries_mem {ts : List (String × ℚ)} {ys : List ℤ} {ms ws : List (Option ℚ)}
    {e : HistEntry} (hys : yearsOf ts = .ok ys) (he : e ∈ zipEntries ys ts ms ws) :
    ∃ p ∈ ts, p.2 = e.total ∧ parseYear p.1 = some e.year := by
  induction ts generalizing ys ms ws with
  | nil =>
    simp only [yearsOf] at hys
    cases hys
    simp [zipEntries] at he
  | cons p ts ih =>
    cases hpy : parseYear p.1 with
    | none => simp only [yearsOf, hpy] at hys; simp at hys
    | some y =>
      cases hrec : yearsOf ts with
      | error e2 => simp only [yearsOf, hpy, hrec] at hys; simp at hys
      | ok ys2 =>
        simp only [yearsOf, hpy, hrec] at hys
        cases hys
        cases ms with
        | nil => simp [zipEntries] at he
        | cons m ms2 =>
          cases ws with
          | nil => simp [zipEntries] at he
          | cons w ws2 =>
            rw [zipEntries] at he
            rcases List.mem_cons.1 he with he1 | he2
            · subst he1
              exact ⟨p, List.mem_cons_self _ _, rfl, hpy⟩
            · obtain ⟨q, hq, h1, h2⟩ := ih hrec he2
              exact ⟨q, List.mem_cons_of_mem _ hq, h1, h2⟩

/-- Every pair of a cleaned series stems from a column whose name contains
the suffix pattern and whose raw cell is non-blank and parses numerically. -/
lemma cleaned_mem {cols : List (String × String)} {pat : String} {p : String × ℚ}
    (hp : p ∈ cleaned cols pat) :
    ∃ c ∈ cols, strContains c.1 pat = true ∧ isBlankStr c.2 = false ∧
      parseNumeric c.2 = some p.2 ∧ c.1 = p.1 := by
  unfold cleaned at hp
  obtain ⟨c, hc, hco⟩ := List.mem_filterMap.1 hp
  obtain ⟨hcm, hcf⟩ := List.mem_filter.1 hc
  cases hq : coerceCell c.2 with
  | none => rw [hq] at hco; simp at hco
  | some q =>
    rw [hq] at hco
    simp only [Option.map_some'] at hco
    have hb : isBlankStr c.2 = false := by
      cases hbb : isBlankStr c.2
      · rfl
      · unfold coerceCell at hq
        rw [if_pos hbb] at hq
        simp at hq
    have hn : parseNumeric c.2 = some q := by
      unfold coerceCell at hq
      rwa [if_neg (by simp [hb])] at hq
    have hpe : (c.1, q) = p := Option.some.inj hco
    subst hpe
    exact ⟨c, hcm, hcf, hb, hn, rfl⟩

/-- Parsing a metacharacter-free pattern yields the concatenation of its
character literals, for any already-accumulated reversed atom list. -/
lemma parseRegexAux_plain : ∀ (cs : List Char), (∀ c ∈ cs, c ∉ metaChars) →
    ∀ acc : List Re,
      parseRegexAux cs none acc [] = some (joinSeq (acc.reverse ++ cs.map Re.ch))
  | [], _, acc => by simp [parseRegexAux, joinAlt]
  | c :: rest, h, acc => by
    have hc : c ∉ metaChars := h c (List.mem_cons_self _ _)
    simp only [metaChars, List.mem_cons, List.not_mem_nil, or_false, not_or] at hc
    obtain ⟨h1, h2, h3, h4, h5, h6, h7, h8, h9, h10, h11, h12, h13, h14⟩ := hc
    have hmem : ¬(c ∈ unsupportedMeta) := by
      simp only [unsupportedMeta, List.mem_cons, List.not_mem_nil, or_false, not_or]
      exact ⟨h6, h7, h8, h9, h10, h11, h12, h13, h14⟩
    rw [parseRegexAux.eq_def]
    simp only [if_neg h1, if_neg h2, if_neg h3, if_neg h4, if_neg h5, if_neg hmem]
    rw [parseRegexAux_plain rest (fun d hd => h d (List.mem_cons_of_mem _ hd)) (Re.ch c :: acc)]
    simp [List.append_assoc]

/-- On a literal-character regex, a prefix match is a case-folded prefix
comparison. -/
lemma reM_chSeq : ∀ (cs s : List Char),
    reM (joinSeq (cs.map Re.ch)) s (fun _ => true) =
      leadsWith (cs.map Char.toLower) (s.map Char.toLower)
  | [], s => by simp [joinSeq, reM, leadsWith]
  | _ :: _, [] => by simp [joinSeq, reM, leadsWith]
  | c :: cs, a :: s => by
    simp only [List.map_cons, joinSeq, reM, leadsWith]
    by_cases hac : a.toLower = c.toLower
    · simp [hac, reM_chSeq cs s]
    · simp [beq_eq_false_iff_ne.mpr hac, beq_eq_false_iff_ne.mpr (Ne.symm hac)]

/-- On a literal-character regex, `re.search` is exactly case-insensitive
substring containment. -/
lemma reSearchL_chSeq (cs : List Char) : ∀ s : List Char,
    reSearchL (joinSeq (cs.map Re.ch)) s = hasSub (cs.map Char.toLower) (s.map Char.toLower)
  | [] => by
    rw [reSearchL, reM_chSeq]
    cases cs <;> simp [leadsWith, hasSub]
  | a :: t => by
    rw [reSearchL, reM_chSeq, reSearchL_chSeq cs t]
    simp only [List.map_cons]
    conv_rhs => rw [hasSub]

/-- A metacharacter-free selection compiles, and its search coincides with
literal case-insensitive substring containment on every haystack. -/
lemma plain_reSearch {sel : String} (h : plainPattern sel = true) :
    ∃ re, parseRegex sel = some re ∧
      ∀ hay : String, reSearchStr re hay = containsCI hay sel := by
  have hmeta : ∀ c ∈ sel.data, c ∉ metaChars := by
    intro c hcm
    have := List.all_eq_true.1 h c hcm
    simpa using this
  refine ⟨joinSeq (sel.data.map Re.ch), ?_, ?_⟩
  · have := parseRegexAux_plain sel.data hmeta []
    simpa [parseRegex] using this
  · intro hay
    rw [reSearchStr, reSearchL_chSeq]
    rfl

/-- The extractor's invalid-pattern branch. -/
lemma computeHistorical_eq_err {rows : List HistRow} {sel : String}
    (hp : parseRegex sel = none) :
    computeHistorical rows sel = .err .reError := by
  unfold computeHistorical
  rw [hp]

/-- The extractor's no-match branch. -/
lemma computeHistorical_eq_none {rows : List HistRow} {sel : String} {re : Re}
    (hp : parseRegex sel = some re)
    (hf : rows.find? (fun r => reSearchStr re r.municipio) = none) :
    computeHistorical rows sel = .noData := by
  unfold computeHistorical
  simp only [hp, hf]

/-- The extractor's found-row branch, with the located row substituted. -/
lemma computeHistorical_eq_some {rows : List HistRow} {sel : String} {re : Re}
    {r : HistRow} (hp : parseRegex sel = some re)
    (hf : rows.find? (fun r => reSearchStr re r.municipio) = some r) :
    computeHistorical rows sel =
      match yearsOf (cleaned r.cols "_t") with
      | .error e => .err e
      | .ok ys =>
        match optColumn (cleaned r.cols "_h") (cleaned r.cols "_t").length with
        | .error e => .err e
        | .ok hcol =>
          match optColumn (cleaned r.cols "_m") (cleaned r.cols "_t").length with
          | .error e => .err e
          | .ok mcol =>
            .series (sortByYear (zipEntries ys (cleaned r.cols "_t") hcol mcol)) := by
  unfold computeHistorical
  simp only [hp, hf]

/-- C8, counterexample to the claim as stated: the selection
"42155 Rabanos (Los)" is literally contained in the municipality cell of the
one-row table `histCX`, yet the extractor — whose `str.contains` treats the
selection as a regular expression in which the parentheses are a group —
finds no row and reports no historical data, so locate-by-substring-
containment is false of the program. -/
theorem claim_C8_counterexample :
    ¬ (computeHistorical histCX selCX = HistResult.noData ↔
        containsCI "42155 Rabanos (Los)" selCX = false) := by
  intro hiff
  have h1 : computeHistorical histCX selCX = HistResult.noData := by decide
  have h2 : containsCI "42155 Rabanos (Los)" selCX = true := by decide
  exact absurd (hiff.mp h1) (by simp [h2])

/-- C8, as amended: the historical extractor locates the municipality row by
a case-insensitive regular-expression search of the selection (pandas
`str.contains` with its default `regex=True`), which coincides with
case-insensitive substring containment exactly when the selection is free of
regex metacharacters; no match gives the no-data outcome, not an error; any
produced series is sorted ascending by year, and each of its points carries
a numerically parsed, non-blank total cell of a `_t` column of the located
row whose leading name token is the point's year. -/
theorem claim_C8 (rows : List HistRow) (sel : String) :
    (computeHistorical rows sel = .noData ↔
      ∃ re, parseRegex sel = some re ∧
        ∀ r ∈ rows, reSearchStr re r.municipio = false) ∧
    (plainPattern sel = true →
      ∃ re, parseRegex sel = some re ∧
        ∀ hay : String, reSearchStr re hay = containsCI hay sel) ∧
    (∀ l, computeHistorical rows sel = .series l →
      l.Sorted yearLE ∧
      ∃ re r, parseRegex sel = some re ∧
        rows.find? (fun r2 => reSearchStr re r2.municipio) = some r ∧ r ∈ rows ∧
        ∀ e ∈ l, ∃ c ∈ r.cols, strContains c.1 "_t" = true ∧ isBlankStr c.2 = false ∧
          parseNumeric c.2 = some e.total ∧ parseYear c.1 = some e.year) := by
  refine ⟨⟨?_, ?_⟩, fun h => plain_reSearch h, ?_⟩
  · intro h
    cases hp : parseRegex sel with
    | none => rw [computeHistorical_eq_err hp] at h; simp at h
    | some re =>
      refine ⟨re, rfl, fun r hr => ?_⟩
      cases hf : rows.find? (fun r2 => reSearchStr re r2.municipio) with
      | none => simpa using List.find?_eq_none.1 hf r hr
      | some r0 =>
        exfalso
        rw [computeHistorical_eq_some hp hf] at h
        cases hys : yearsOf (cleaned r0.cols "_t") with
        | error e => simp [hys] at h
        | ok ys =>
          cases hh : optColumn (cleaned r0.cols "_h") (cleaned r0.cols "_t").length with
          | error e => simp [hys, hh] at h
          | ok hcol =>
            cases hm : optColumn (cleaned r0.cols "_m") (cleaned r0.cols "_t").length with
            | error e => simp [hys, hh, hm] at h
            | ok mcol => simp [hys, hh, hm] at h
  · rintro ⟨re, hp, hall⟩
    exact computeHistorical_eq_none hp
      (List.find?_eq_none.2 (fun r hr => by simp [hall r hr]))
  · intro l hl
    cases hp : parseRegex sel with
    | none => rw [computeHistorical_eq_err hp] at hl; simp at hl
    | some re =>
      cases hf : rows.find? (fun r2 => reSearchStr re r2.municipio) with
      | none => rw [computeHistorical_eq_none hp hf] at hl; simp at hl
      | some r =>
        rw [computeHistorical_eq_some hp hf] at hl
        cases hys : yearsOf (cleaned r.cols "_t") with
        | error e => simp [hys] at hl
        | ok ys =>
          cases hh : optColumn (cleaned r.cols "_h") (cleaned r.cols "_t").length with
          | error e => simp [hys, hh] at hl
          | ok hcol =>
            cases hm : optColumn (cleaned r.cols "_m") (cleaned r.cols "_t").length with
            | error e => simp [hys, hh, hm] at hl
            | ok mcol =>
              simp only [hys, hh, hm, HistResult.series.injEq] at hl
              subst hl
              refine ⟨List.sorted_insertionSort yearLE _, re, r, rfl, hf,
                List.mem_of_find?_eq_some hf, ?_⟩
              intro e he
              have he2 : e ∈ zipEntries ys (cleaned r.cols "_t") hcol mcol :=
                (List.perm_insertionSort yearLE _).subset he
              obtain ⟨p, hpm, hpt, hpy⟩ := zipEntries_mem hys he2
              obtain ⟨c, hcm, hcf, hb, hn, hcp⟩ := cleaned_mem hpm
              exact ⟨c, hcm, hcf, hb, by rw [hn, hpt], by rw [hcp, hpy]⟩

theorem claim_C8_witness :
    computeHistorical histW "soria" = .series entriesW ∧ entriesW.Sorted yearLE := by
  have hEval : computeHistorical histW "soria" = .series entriesW := by decide
  exact ⟨hEval, ((claim_C8 histW "soria").2.2 entriesW hEval).1⟩

/-- C9: the Streamlit and Tkinter drivers compute equal values for the six
demographic indicators; the only difference is the absent marker (`None`
versus the empty string, modelled by `Cell.blank`). -/
theorem claim_C9 (env : Env) (year : String) :
    (mkRow env year).envejecimiento = (Ejemplo.envejecimiento env.pop year).toOpt ∧
    (mkRow env year).senectud = (Ejemplo.senectud env.pop year).toOpt ∧
    (mkRow env year).extranjera = (Ejemplo.extranjera env.pop year).toOpt ∧
    (mkRow env year).depTotal = (Ejemplo.depTotal env.pop year).toOpt ∧
    (mkRow env year).depInfantil = (Ejemplo.depInfantil env.pop year).toOpt ∧
    (mkRow env year).depMayores = (Ejemplo.depMayores env.pop year).toOpt := by
  refine ⟨?_, ?_, ?_, ?_, ?_, ?_⟩ <;>
    simp only [mkRow, envejecimiento, senectud, extranjera, depTotal,
      depInfantil, depMayores, Ejemplo.envejecimiento, Ejemplo.senectud,
      Ejemplo.extranjera, Ejemplo.depTotal, Ejemplo.depInfantil,
      Ejemplo.depMayores] <;>
    exact opt_cell_if _ _

/-- C10: over exact rational arithmetic, the unrounded total dependency ratio
is the sum of the unrounded child and elderly dependency ratios. -/
theorem claim_C10 (pop : Pop) (year : String) (_h : pop15_64Of pop year ≠ 0) :
    (pop0_14Of pop year + over65Of pop year) / pop15_64Of pop year * 100 =
      pop0_14Of pop year / pop15_64Of pop year * 100 +
        over65Of pop year / pop15_64Of pop year * 100 := by
  rw [add_div, add_mul]

theorem claim_C10_witness :
    pop15_64Of popW "2024" ≠ 0 ∧
      (pop0_14Of popW "2024" + over65Of popW "2024") / pop15_64Of popW "2024" * 100 =
        pop0_14Of popW "2024" / pop15_64Of popW "2024" * 100 +
          over65Of popW "2024" / pop15_64Of popW "2024" * 100 := by
  have h15 : pop15_64Of popW "2024" = List.sum [(500 : ℚ)] := rfl
  have h : pop15_64Of popW "2024" ≠ 0 := by rw [h15]; norm_num
  exact ⟨h, claim_C10 popW "2024" h⟩

end IndApp
